import Mathlib

/-!
Verification of the meal-planner backend (server.js): a shallow embedding
of the five Express request handlers as pure Lean functions over an
explicit store state, together with a trace of the external service calls
each handler attempts.  External services (text generation, document
store, blob store) are modelled by environments carrying their outcome.
-/

/-- A JavaScript value as it can occur in a parsed JSON request body. -/
inductive JSValue where
  | str (s : String)
  | num (n : Int)
  | bool (b : Bool)
  | null
  | undefined
deriving DecidableEq, Repr

/-- JavaScript truthiness, as tested by `if (!x)`. -/
def jsTruthy : JSValue → Bool
  | .str s => s != ""
  | .num n => n != 0
  | .bool b => b
  | .null => false
  | .undefined => false

/-- JavaScript string interpolation of a value inside a template literal. -/
def jsToString : JSValue → String
  | .str s => s
  | .num n => toString n
  | .bool b => if b then "true" else "false"
  | .null => "null"
  | .undefined => "undefined"

/-- A parsed JSON request body: field names mapped to values. -/
def ReqBody := List (String × JSValue)

/-- Property access `body.k` on a parsed body: the value when the field is
present, JavaScript `undefined` when absent. -/
def getField (body : ReqBody) (k : String) : JSValue :=
  match body.find? (fun p => p.1 == k) with
  | some p => p.2
  | none => JSValue.undefined

/-- Optional lookup of a body field, distinguishing an absent field. -/
def findField (body : ReqBody) (k : String) : Option JSValue :=
  (body.find? (fun p => p.1 == k)).map (fun p => p.2)

/-- An uploaded multipart file as exposed by the upload middleware. -/
structure FileInfo where
  originalname : String
  mimetype : String
  buffer : List Nat
deriving DecidableEq, Repr

/-- A blob held by the object store. -/
structure Blob where
  path : String
  data : List Nat
  contentType : String
deriving DecidableEq, Repr

/-- A document of the favorites collection, as written by the save handler. -/
structure FavoriteDoc where
  id : String
  createdAt : Nat
  content : JSValue
deriving DecidableEq, Repr

/-- A document of the cookbooks collection, as written by the upload handler. -/
structure CookbookDoc where
  id : String
  name : String
  storagePath : String
  uploadedAt : Nat
deriving DecidableEq, Repr

/-- The combined state of the two external stores. -/
structure StoreState where
  blobs : List Blob
  favorites : List FavoriteDoc
  cookbooks : List CookbookDoc
deriving DecidableEq, Repr

/-- The empty external state: no blobs, no documents. -/
def emptyState : StoreState := ⟨[], [], []⟩

/-- One attempted call to an external service. -/
inductive CallEvent where
  | genCall (prompt : String)
  | addDocCall (coll : String)
  | getDocsCall (coll : String)
  | uploadBytesCall (path : String)
deriving DecidableEq, Repr

/-- The JSON body a handler sends back. -/
inductive RespBody where
  | planOk (mealPlan : String)
  | idOk (id : String)
  | favList (favorites : List FavoriteDoc)
  | cookList (cookbooks : List CookbookDoc)
  | msgOk (message : String)
  | failure (message : String)
deriving DecidableEq, Repr

/-- An HTTP response: status code and JSON body. -/
structure HttpResponse where
  status : Nat
  body : RespBody
deriving DecidableEq, Repr

/-- What a handler produces: the response, the resulting external state,
and the external calls attempted, in order. -/
def HandlerResult := HttpResponse × StoreState × List CallEvent

/-- Outcome of the text-generation service for one request: whether the
call succeeds, the text produced on success, and the raw error message
thrown on failure (only ever logged, never sent to the client). -/
structure GenEnv where
  genOk : Bool
  genText : String
  errMsg : String

/-- Outcome of the document-store write for one save request. -/
structure SaveEnv where
  addOk : Bool
  newId : String
  errMsg : String

/-- Outcome of the document-store read for one list request. -/
structure ListEnv where
  getOk : Bool
  errMsg : String

/-- Outcomes of the blob write and the metadata write for one upload. -/
structure UploadEnv where
  blobOk : Bool
  metaOk : Bool
  newId : String
  errMsg : String

/-- Fixed text of the prompt template literal before `${template}`. -/
def promptPart1 : String :=
  "\n            Using the following meal plan as a template:\n            --- TEMPLATE START ---\n            "

/-- Fixed text between `${template}` and `${cookbook}`. -/
def promptPart2 : String :=
  "\n            --- TEMPLATE END ---\n\n            Create a new one-week meal plan for a single person with the following changes:\n            1. Cookbook: "

/-- Fixed text between `${cookbook}` and `${dietaryNeeds}`. -/
def promptPart3 : String :=
  "\n            2. Dietary Needs: "

/-- Fixed text between `${dietaryNeeds}` and `${specialRequests}`. -/
def promptPart4 : String :=
  "\n            3. Special Requests: "

/-- Fixed text of the template literal after `${specialRequests}`. -/
def promptPart5 : String :=
  "\n\n            Respond ONLY with the complete, updated markdown for the new meal plan file. Do not include any other text or explanation.\n        "

/-- The prompt built by the generate-plan handler from the four body
fields, mirroring the template literal of server.js lines 56-68. -/
def mkPrompt (template cookbook dietaryNeeds specialRequests : JSValue) : String :=
  promptPart1 ++ jsToString template ++ promptPart2 ++ jsToString cookbook ++
    promptPart3 ++ jsToString dietaryNeeds ++ promptPart4 ++ jsToString specialRequests ++
    promptPart5

/-- POST /generate-plan: destructure the four body fields, build the
prompt, call the generation service; answer with the produced text, or
500 with a generic message if the call throws. -/
def generatePlan (body : ReqBody) (env : GenEnv) (st : StoreState) : HandlerResult :=
  let prompt := mkPrompt (getField body "template") (getField body "cookbook")
    (getField body "dietaryNeeds") (getField body "specialRequests")
  if env.genOk then
    (⟨200, RespBody.planOk env.genText⟩, st, [CallEvent.genCall prompt])
  else
    (⟨500, RespBody.failure "Failed to generate meal plan."⟩, st, [CallEvent.genCall prompt])

/-- POST /favorites: reject a falsy mealPlanMarkdown with 400 before any
store call; otherwise add a document with createdAt and content fields and
answer with the generated id, or 500 if the write throws. -/
def saveFavorite (body : ReqBody) (env : SaveEnv) (now : Nat) (st : StoreState) :
    HandlerResult :=
  let v := getField body "mealPlanMarkdown"
  if !(jsTruthy v) then
    (⟨400, RespBody.failure "No meal plan content provided."⟩, st, [])
  else if env.addOk then
    (⟨200, RespBody.idOk env.newId⟩,
     { st with favorites := st.favorites ++ [⟨env.newId, now, v⟩] },
     [CallEvent.addDocCall "favorites"])
  else
    (⟨500, RespBody.failure "Failed to save favorite."⟩, st,
     [CallEvent.addDocCall "favorites"])

/-- GET /favorites: read all documents of the favorites collection and
return them, or 500 if the read throws. -/
def listFavorites (env : ListEnv) (st : StoreState) : HandlerResult :=
  if env.getOk then
    (⟨200, RespBody.favList st.favorites⟩, st, [CallEvent.getDocsCall "favorites"])
  else
    (⟨500, RespBody.failure "Failed to fetch favorites."⟩, st,
     [CallEvent.getDocsCall "favorites"])

/-- POST /upload-cookbook: reject a missing file with 400 before any
external call; otherwise write the blob at cookbooks/<now>_<name>, then
write the metadata record; 500 with a generic message if either throws. -/
def uploadCookbook (file : Option FileInfo) (env : UploadEnv) (now : Nat)
    (st : StoreState) : HandlerResult :=
  match file with
  | none => (⟨400, RespBody.failure "No file uploaded."⟩, st, [])
  | some f =>
    let path := "cookbooks/" ++ toString now ++ "_" ++ f.originalname
    if env.blobOk then
      let st1 := { st with blobs := st.blobs ++ [⟨path, f.buffer, f.mimetype⟩] }
      if env.metaOk then
        (⟨200, RespBody.msgOk "Cookbook uploaded successfully."⟩,
         { st1 with cookbooks := st1.cookbooks ++ [⟨env.newId, f.originalname, path, now⟩] },
         [CallEvent.uploadBytesCall path, CallEvent.addDocCall "cookbooks"])
      else
        (⟨500, RespBody.failure "Failed to upload cookbook."⟩, st1,
         [CallEvent.uploadBytesCall path, CallEvent.addDocCall "cookbooks"])
    else
      (⟨500, RespBody.failure "Failed to upload cookbook."⟩, st,
       [CallEvent.uploadBytesCall path])

/-- GET /cookbooks: read all documents of the cookbooks collection and
return them, or 500 if the read throws. -/
def listCookbooks (env : ListEnv) (st : StoreState) : HandlerResult :=
  if env.getOk then
    (⟨200, RespBody.cookList st.cookbooks⟩, st, [CallEvent.getDocsCall "cookbooks"])
  else
    (⟨500, RespBody.failure "Failed to fetch cookbooks."⟩, st,
     [CallEvent.getDocsCall "cookbooks"])

/-- s contains t as a contiguous substring. -/
def ContainsSubstr (s t : String) : Prop := ∃ a b : String, s = a ++ (t ++ b)

/-- Property access agrees with optional lookup: absent means undefined. -/
theorem getField_eq_findField (body : ReqBody) (k : String) :
    getField body k = (findField body k).getD JSValue.undefined := by
  unfold getField findField
  cases body.find? (fun p => p.1 == k) <;> simp

/-- A string built around t contains t as a substring. -/
theorem containsSubstr_parts (a t b : String) : ContainsSubstr (a ++ (t ++ b)) t :=
  ⟨a, b, rfl⟩

/-- C1: for every MealPlanRequest whose four fields are strings, the
generate-plan handler sends the generation service exactly one prompt,
and that prompt contains the template and each of the three
user-supplied fields verbatim as substrings, unescaped. -/
theorem generatePlan_prompt_contains_fields
    (cookbook dietaryNeeds specialRequests template : String)
    (env : GenEnv) (st : StoreState) :
    ∃ p, (generatePlan
        [("cookbook", JSValue.str cookbook), ("dietaryNeeds", JSValue.str dietaryNeeds),
         ("specialRequests", JSValue.str specialRequests), ("template", JSValue.str template)]
        env st).2.2 = [CallEvent.genCall p] ∧
      ContainsSubstr p template ∧ ContainsSubstr p cookbook ∧
      ContainsSubstr p dietaryNeeds ∧ ContainsSubstr p specialRequests := by
  refine ⟨mkPrompt (JSValue.str template) (JSValue.str cookbook)
    (JSValue.str dietaryNeeds) (JSValue.str specialRequests), ?_, ?_, ?_, ?_, ?_⟩
  · unfold generatePlan
    cases h : env.genOk <;> simp [h, getField]
  · exact ⟨promptPart1, promptPart2 ++ jsToString (JSValue.str cookbook) ++
      promptPart3 ++ jsToString (JSValue.str dietaryNeeds) ++ promptPart4 ++
      jsToString (JSValue.str specialRequests) ++ promptPart5,
      by simp [mkPrompt, jsToString, String.append_assoc]⟩
  · exact ⟨promptPart1 ++ jsToString (JSValue.str template) ++ promptPart2,
      promptPart3 ++ jsToString (JSValue.str dietaryNeeds) ++ promptPart4 ++
      jsToString (JSValue.str specialRequests) ++ promptPart5,
      by simp [mkPrompt, jsToString, String.append_assoc]⟩
  · exact ⟨promptPart1 ++ jsToString (JSValue.str template) ++ promptPart2 ++
      jsToString (JSValue.str cookbook) ++ promptPart3,
      promptPart4 ++ jsToString (JSValue.str specialRequests) ++ promptPart5,
      by simp [mkPrompt, jsToString, String.append_assoc]⟩
  · exact ⟨promptPart1 ++ jsToString (JSValue.str template) ++ promptPart2 ++
      jsToString (JSValue.str cookbook) ++ promptPart3 ++
      jsToString (JSValue.str dietaryNeeds) ++ promptPart4,
      promptPart5,
      by simp [mkPrompt, jsToString, String.append_assoc]⟩

/-- C3: a POST /favorites request whose mealPlanMarkdown field is absent
or the empty string gets a 400 failure response, the store state is
unchanged, and no external call is attempted. -/
theorem saveFavorite_rejects_missing_or_empty
    (body : ReqBody) (env : SaveEnv) (now : Nat) (st : StoreState)
    (h : findField body "mealPlanMarkdown" = none ∨
         findField body "mealPlanMarkdown" = some (JSValue.str "")) :
    saveFavorite body env now st =
      (⟨400, RespBody.failure "No meal plan content provided."⟩, st, []) := by
  have hg := getField_eq_findField body "mealPlanMarkdown"
  rcases h with h | h <;>
    simp only [h, Option.getD] at hg <;>
    simp [saveFavorite, hg, jsTruthy]

/-- C3 witness: a body with no mealPlanMarkdown field is rejected. -/
theorem saveFavorite_rejects_missing_or_empty_w :
    saveFavorite [] ⟨true, "id1", "boom"⟩ 7 emptyState =
      (⟨400, RespBody.failure "No meal plan content provided."⟩, emptyState, []) :=
  saveFavorite_rejects_missing_or_empty [] ⟨true, "id1", "boom"⟩ 7 emptyState (Or.inl rfl)

/-- C6: a POST /upload-cookbook request carrying no file gets a 400
failure response, with no blob write, no metadata write, and no external
call at all. -/
theorem uploadCookbook_rejects_missing_file
    (env : UploadEnv) (now : Nat) (st : StoreState) :
    uploadCookbook none env now st =
      (⟨400, RespBody.failure "No file uploaded."⟩, st, []) := rfl

/-- C2: the upload handler attempts the metadata write only after a
successful blob write; the storagePath-references-a-written-blob
invariant is preserved by every execution, and a failed blob write adds
no metadata record. -/
theorem uploadCookbook_write_then_record
    (file : Option FileInfo) (env : UploadEnv) (now : Nat) (st : StoreState)
    (hInv : ∀ r ∈ st.cookbooks, ∃ b ∈ st.blobs, b.path = r.storagePath) :
    (∀ r ∈ (uploadCookbook file env now st).2.1.cookbooks,
        ∃ b ∈ (uploadCookbook file env now st).2.1.blobs, b.path = r.storagePath) ∧
    (CallEvent.addDocCall "cookbooks" ∈ (uploadCookbook file env now st).2.2 →
        env.blobOk = true) ∧
    (env.blobOk = false →
        (uploadCookbook file env now st).2.1.cookbooks = st.cookbooks) := by
  match file with
  | none =>
    refine ⟨?_, ?_, ?_⟩ <;> simp [uploadCookbook]
    exact hInv
  | some f =>
    cases hb : env.blobOk with
    | false =>
      refine ⟨?_, ?_, ?_⟩ <;> simp [uploadCookbook, hb]
      exact hInv
    | true =>
      cases hm : env.metaOk with
      | false =>
        refine ⟨?_, ?_, ?_⟩ <;> simp [uploadCookbook, hb, hm]
        intro r hr
        obtain ⟨b, hbmem, hbp⟩ := hInv r hr
        exact ⟨b, Or.inl hbmem, hbp⟩
      | true =>
        refine ⟨?_, ?_, ?_⟩ <;> simp [uploadCookbook, hb, hm]
        intro r hr
        rcases hr with hr | hr
        · obtain ⟨b, hbmem, hbp⟩ := hInv r hr
          exact ⟨b, Or.inl hbmem, hbp⟩
        · subst hr
          exact ⟨⟨"cookbooks/" ++ toString now ++ "_" ++ f.originalname,
            f.buffer, f.mimetype⟩, Or.inr rfl, rfl⟩

/-- C2 witness: from the empty state, a failed blob write leaves the
cookbooks collection unchanged. -/
theorem uploadCookbook_write_then_record_w :
    (uploadCookbook (some ⟨"recipes.pdf", "application/pdf", [1, 2]⟩)
        ⟨false, true, "id1", "boom"⟩ 5 emptyState).2.1.cookbooks =
      emptyState.cookbooks :=
  (uploadCookbook_write_then_record (some ⟨"recipes.pdf", "application/pdf", [1, 2]⟩)
    ⟨false, true, "id1", "boom"⟩ 5 emptyState (by simp [emptyState])).2.2 rfl

/-- C4: a successful upload of a file named n at time t writes exactly
one blob, at key cookbooks/<t>_<n>, and exactly one metadata record,
whose storagePath is that key and whose name is n. -/
theorem uploadCookbook_success_shape
    (f : FileInfo) (env : UploadEnv) (now : Nat) (st : StoreState)
    (hb : env.blobOk = true) (hm : env.metaOk = true) :
    uploadCookbook (some f) env now st =
      (⟨200, RespBody.msgOk "Cookbook uploaded successfully."⟩,
       ⟨st.blobs ++ [⟨"cookbooks/" ++ toString now ++ "_" ++ f.originalname,
          f.buffer, f.mimetype⟩],
        st.favorites,
        st.cookbooks ++ [⟨env.newId, f.originalname,
          "cookbooks/" ++ toString now ++ "_" ++ f.originalname, now⟩]⟩,
       [CallEvent.uploadBytesCall
          ("cookbooks/" ++ toString now ++ "_" ++ f.originalname),
        CallEvent.addDocCall "cookbooks"]) := by
  simp [uploadCookbook, hb, hm]

/-- C4 witness: a concrete successful upload produces the one blob and
the one matching record. -/
theorem uploadCookbook_success_shape_w :
    uploadCookbook (some ⟨"recipes.pdf", "application/pdf", [1, 2]⟩)
        ⟨true, true, "id1", ""⟩ 5 emptyState =
      (⟨200, RespBody.msgOk "Cookbook uploaded successfully."⟩,
       ⟨[⟨"cookbooks/5_recipes.pdf", [1, 2], "application/pdf"⟩], [],
        [⟨"id1", "recipes.pdf", "cookbooks/5_recipes.pdf", 5⟩]⟩,
       [CallEvent.uploadBytesCall "cookbooks/5_recipes.pdf",
        CallEvent.addDocCall "cookbooks"]) := by
  have h := uploadCookbook_success_shape ⟨"recipes.pdf", "application/pdf", [1, 2]⟩
    ⟨true, true, "id1", ""⟩ 5 emptyState rfl rfl
  simpa [emptyState] using h

/-- C5: whenever the external call of any of the five endpoints throws,
the handler answers 500 with its fixed generic message, independent of
the raw error, and attempts the failing external call exactly once (no
retry); for the upload endpoint both failure points are covered. -/
theorem handlers_catch_to_generic_500
    (body sbody : ReqBody) (now : Nat) (f : FileInfo)
    (genv : GenEnv) (senv : SaveEnv) (lenv lenv2 : ListEnv)
    (uenv uenv2 : UploadEnv) (st : StoreState)
    (hg : genv.genOk = false)
    (hs : senv.addOk = false)
    (hsv : jsTruthy (getField sbody "mealPlanMarkdown") = true)
    (hl : lenv.getOk = false) (hl2 : lenv2.getOk = false)
    (hub : uenv.blobOk = false)
    (hub2 : uenv2.blobOk = true) (hum2 : uenv2.metaOk = false) :
    generatePlan body genv st =
      (⟨500, RespBody.failure "Failed to generate meal plan."⟩, st,
       [CallEvent.genCall (mkPrompt (getField body "template")
          (getField body "cookbook") (getField body "dietaryNeeds")
          (getField body "specialRequests"))]) ∧
    saveFavorite sbody senv now st =
      (⟨500, RespBody.failure "Failed to save favorite."⟩, st,
       [CallEvent.addDocCall "favorites"]) ∧
    listFavorites lenv st =
      (⟨500, RespBody.failure "Failed to fetch favorites."⟩, st,
       [CallEvent.getDocsCall "favorites"]) ∧
    uploadCookbook (some f) uenv now st =
      (⟨500, RespBody.failure "Failed to upload cookbook."⟩, st,
       [CallEvent.uploadBytesCall
          ("cookbooks/" ++ toString now ++ "_" ++ f.originalname)]) ∧
    uploadCookbook (some f) uenv2 now st =
      (⟨500, RespBody.failure "Failed to upload cookbook."⟩,
       ⟨st.blobs ++ [⟨"cookbooks/" ++ toString now ++ "_" ++ f.originalname,
          f.buffer, f.mimetype⟩], st.favorites, st.cookbooks⟩,
       [CallEvent.uploadBytesCall
          ("cookbooks/" ++ toString now ++ "_" ++ f.originalname),
        CallEvent.addDocCall "cookbooks"]) ∧
    listCookbooks lenv2 st =
      (⟨500, RespBody.failure "Failed to fetch cookbooks."⟩, st,
       [CallEvent.getDocsCall "cookbooks"]) := by
  refine ⟨?_, ?_, ?_, ?_, ?_, ?_⟩
  · simp [generatePlan, hg]
  · simp [saveFavorite, hsv, hs]
  · simp [listFavorites, hl]
  · simp [uploadCookbook, hub]
  · simp [uploadCookbook, hub2, hum2]
  · simp [listCookbooks, hl2]

/-- C5 witness: the six failure cases at concrete inputs. -/
theorem handlers_catch_to_generic_500_w :
    generatePlan [] ⟨false, "", "raw gen error"⟩ emptyState =
      (⟨500, RespBody.failure "Failed to generate meal plan."⟩, emptyState,
       [CallEvent.genCall (mkPrompt JSValue.undefined JSValue.undefined
          JSValue.undefined JSValue.undefined)]) ∧
    saveFavorite [("mealPlanMarkdown", JSValue.str "# Plan A")]
        ⟨false, "idA", "raw db error"⟩ 9 emptyState =
      (⟨500, RespBody.failure "Failed to save favorite."⟩, emptyState,
       [CallEvent.addDocCall "favorites"]) ∧
    listFavorites ⟨false, "raw db error"⟩ emptyState =
      (⟨500, RespBody.failure "Failed to fetch favorites."⟩, emptyState,
       [CallEvent.getDocsCall "favorites"]) ∧
    uploadCookbook (some ⟨"a.pdf", "application/pdf", [3]⟩)
        ⟨false, true, "idB", "raw blob error"⟩ 9 emptyState =
      (⟨500, RespBody.failure "Failed to upload cookbook."⟩, emptyState,
       [CallEvent.uploadBytesCall "cookbooks/9_a.pdf"]) ∧
    uploadCookbook (some ⟨"a.pdf", "application/pdf", [3]⟩)
        ⟨true, false, "idB", "raw db error"⟩ 9 emptyState =
      (⟨500, RespBody.failure "Failed to upload cookbook."⟩,
       ⟨[⟨"cookbooks/9_a.pdf", [3], "application/pdf"⟩], [], []⟩,
       [CallEvent.uploadBytesCall "cookbooks/9_a.pdf",
        CallEvent.addDocCall "cookbooks"]) ∧
    listCookbooks ⟨false, "raw db error"⟩ emptyState =
      (⟨500, RespBody.failure "Failed to fetch cookbooks."⟩, emptyState,
       [CallEvent.getDocsCall "cookbooks"]) := by
  have h := handlers_catch_to_generic_500 [] [("mealPlanMarkdown", JSValue.str "# Plan A")]
    9 ⟨"a.pdf", "application/pdf", [3]⟩ ⟨false, "", "raw gen error"⟩
    ⟨false, "idA", "raw db error"⟩ ⟨false, "raw db error"⟩ ⟨false, "raw db error"⟩
    ⟨false, true, "idB", "raw blob error"⟩ ⟨true, false, "idB", "raw db error"⟩
    emptyState rfl rfl (by simp [getField, jsTruthy]) rfl rfl rfl rfl rfl
  simpa [emptyState, getField] using h

/-- One save request of a sequence: the markdown sent, the id the store
generates for the new document, and the wall-clock time of the save. -/
structure SaveInput where
  markdown : String
  newId : String
  now : Nat
deriving DecidableEq, Repr

/-- Run a sequence of POST /favorites saves, collecting the responses
and threading the store state. -/
def runSaves : List SaveInput → StoreState → List HttpResponse × StoreState
  | [], st => ([], st)
  | x :: rest, st =>
    let r := saveFavorite [("mealPlanMarkdown", JSValue.str x.markdown)]
      ⟨true, x.newId, ""⟩ x.now st
    let rr := runSaves rest r.2.1
    (r.1 :: rr.1, rr.2)

/-- A sequence of successful saves appends exactly its documents, in
order, and answers each save with its generated id. -/
theorem runSaves_spec (inputs : List SaveInput) (st : StoreState)
    (h : ∀ x ∈ inputs, x.markdown ≠ "") :
    runSaves inputs st =
      (inputs.map (fun x => ⟨200, RespBody.idOk x.newId⟩),
       ⟨st.blobs,
        st.favorites ++ inputs.map (fun x => ⟨x.newId, x.now, JSValue.str x.markdown⟩),
        st.cookbooks⟩) := by
  induction inputs generalizing st with
  | nil => simp [runSaves]
  | cons x rest ih =>
    have hx : x.markdown ≠ "" := h x (by simp)
    have hrest : ∀ y ∈ rest, y.markdown ≠ "" := fun y hy => h y (by simp [hy])
    simp [runSaves, saveFavorite, getField, jsTruthy, hx, ih _ hrest]

/-- C7: after N successful saves starting from the empty favorites
collection, each save answered with its generated id, and a GET
/favorites returns exactly those N documents, identified by those ids. -/
theorem saves_then_list (inputs : List SaveInput) (e : String)
    (h : ∀ x ∈ inputs, x.markdown ≠ "") :
    (runSaves inputs emptyState).1 =
      inputs.map (fun x => ⟨200, RespBody.idOk x.newId⟩) ∧
    ∃ docs, listFavorites ⟨true, e⟩ (runSaves inputs emptyState).2 =
      (⟨200, RespBody.favList docs⟩, (runSaves inputs emptyState).2,
       [CallEvent.getDocsCall "favorites"]) ∧
      docs.map FavoriteDoc.id = inputs.map SaveInput.newId ∧
      docs.length = inputs.length := by
  have hs := runSaves_spec inputs emptyState h
  refine ⟨by rw [hs], ?_⟩
  refine ⟨inputs.map (fun x => ⟨x.newId, x.now, JSValue.str x.markdown⟩), ?_, ?_, ?_⟩
  · rw [hs]
    simp [listFavorites, emptyState]
  · simp
  · simp

/-- C7 witness: two concrete saves, then a list returning both ids. -/
theorem saves_then_list_w :
    (runSaves [⟨"# Plan A", "idA", 1⟩, ⟨"# Plan B", "idB", 2⟩] emptyState).1 =
      [⟨200, RespBody.idOk "idA"⟩, ⟨200, RespBody.idOk "idB"⟩] ∧
    ∃ docs, listFavorites ⟨true, ""⟩
        (runSaves [⟨"# Plan A", "idA", 1⟩, ⟨"# Plan B", "idB", 2⟩] emptyState).2 =
      (⟨200, RespBody.favList docs⟩,
       (runSaves [⟨"# Plan A", "idA", 1⟩, ⟨"# Plan B", "idB", 2⟩] emptyState).2,
       [CallEvent.getDocsCall "favorites"]) ∧
      docs.map FavoriteDoc.id = ["idA", "idB"] ∧
      docs.length = 2 := by
  have h := saves_then_list [⟨"# Plan A", "idA", 1⟩, ⟨"# Plan B", "idB", 2⟩] ""
    (by decide)
  simpa using h

/-- C8: a POST /favorites request whose mealPlanMarkdown is a non-empty
string writes exactly one new document, whose content is the input
string verbatim and whose createdAt is the save time, and answers
success with the store-generated id of that document. -/
theorem saveFavorite_writes_one_doc (body : ReqBody) (m : String) (env : SaveEnv)
    (now : Nat) (st : StoreState)
    (hb : findField body "mealPlanMarkdown" = some (JSValue.str m))
    (hm : m ≠ "") (ha : env.addOk = true) :
    saveFavorite body env now st =
      (⟨200, RespBody.idOk env.newId⟩,
       ⟨st.blobs, st.favorites ++ [⟨env.newId, now, JSValue.str m⟩], st.cookbooks⟩,
       [CallEvent.addDocCall "favorites"]) := by
  have hg := getField_eq_findField body "mealPlanMarkdown"
  rw [hb] at hg
  simp only [Option.getD] at hg
  simp [saveFavorite, hg, jsTruthy, hm, ha]

/-- C8 witness: saving a concrete plan writes the one document. -/
theorem saveFavorite_writes_one_doc_w :
    saveFavorite [("mealPlanMarkdown", JSValue.str "# Plan A")]
        ⟨true, "idA", ""⟩ 4 emptyState =
      (⟨200, RespBody.idOk "idA"⟩,
       ⟨[], [⟨"idA", 4, JSValue.str "# Plan A"⟩], []⟩,
       [CallEvent.addDocCall "favorites"]) := by
  have h := saveFavorite_writes_one_doc [("mealPlanMarkdown", JSValue.str "# Plan A")]
    "# Plan A" ⟨true, "idA", ""⟩ 4 emptyState rfl (by decide) rfl
  simpa [emptyState] using h

/-- The prompt contains the interpolation of its template argument. -/
theorem mkPrompt_contains_template (t c d s : JSValue) :
    ContainsSubstr (mkPrompt t c d s) (jsToString t) :=
  ⟨promptPart1, promptPart2 ++ jsToString c ++ promptPart3 ++ jsToString d ++
    promptPart4 ++ jsToString s ++ promptPart5,
   by simp [mkPrompt, String.append_assoc]⟩

/-- The prompt contains the interpolation of its cookbook argument. -/
theorem mkPrompt_contains_cookbook (t c d s : JSValue) :
    ContainsSubstr (mkPrompt t c d s) (jsToString c) :=
  ⟨promptPart1 ++ jsToString t ++ promptPart2,
   promptPart3 ++ jsToString d ++ promptPart4 ++ jsToString s ++ promptPart5,
   by simp [mkPrompt, String.append_assoc]⟩

/-- The prompt contains the interpolation of its dietaryNeeds argument. -/
theorem mkPrompt_contains_dietary (t c d s : JSValue) :
    ContainsSubstr (mkPrompt t c d s) (jsToString d) :=
  ⟨promptPart1 ++ jsToString t ++ promptPart2 ++ jsToString c ++ promptPart3,
   promptPart4 ++ jsToString s ++ promptPart5,
   by simp [mkPrompt, String.append_assoc]⟩

/-- The prompt contains the interpolation of its specialRequests argument. -/
theorem mkPrompt_contains_special (t c d s : JSValue) :
    ContainsSubstr (mkPrompt t c d s) (jsToString s) :=
  ⟨promptPart1 ++ jsToString t ++ promptPart2 ++ jsToString c ++ promptPart3 ++
    jsToString d ++ promptPart4, promptPart5,
   by simp [mkPrompt, String.append_assoc]⟩

/-- C9: the generate-plan handler performs no validation: it always
invokes the generation service with the constructed prompt; an absent
field interpolates as the literal string undefined, and for each absent
field the prompt contains undefined as a substring. -/
theorem generatePlan_absent_fields (body : ReqBody) (env : GenEnv) (st : StoreState) :
    (generatePlan body env st).2.2 =
      [CallEvent.genCall (mkPrompt (getField body "template") (getField body "cookbook")
        (getField body "dietaryNeeds") (getField body "specialRequests"))] ∧
    (∀ k, findField body k = none → jsToString (getField body k) = "undefined") ∧
    (findField body "template" = none →
      ContainsSubstr (mkPrompt (getField body "template") (getField body "cookbook")
        (getField body "dietaryNeeds") (getField body "specialRequests")) "undefined") ∧
    (findField body "cookbook" = none →
      ContainsSubstr (mkPrompt (getField body "template") (getField body "cookbook")
        (getField body "dietaryNeeds") (getField body "specialRequests")) "undefined") ∧
    (findField body "dietaryNeeds" = none →
      ContainsSubstr (mkPrompt (getField body "template") (getField body "cookbook")
        (getField body "dietaryNeeds") (getField body "specialRequests")) "undefined") ∧
    (findField body "specialRequests" = none →
      ContainsSubstr (mkPrompt (getField body "template") (getField body "cookbook")
        (getField body "dietaryNeeds") (getField body "specialRequests")) "undefined") := by
  have hu : ∀ k, findField body k = none → getField body k = JSValue.undefined := by
    intro k hk
    rw [getField_eq_findField, hk]
    rfl
  refine ⟨?_, ?_, ?_, ?_, ?_, ?_⟩
  · unfold generatePlan
    cases hg : env.genOk <;> simp [hg]
  · intro k hk
    rw [hu k hk]
    rfl
  · intro hk
    rw [hu _ hk]
    exact mkPrompt_contains_template JSValue.undefined _ _ _
  · intro hk
    rw [hu _ hk]
    exact mkPrompt_contains_cookbook _ JSValue.undefined _ _
  · intro hk
    rw [hu _ hk]
    exact mkPrompt_contains_dietary _ _ JSValue.undefined _
  · intro hk
    rw [hu _ hk]
    exact mkPrompt_contains_special _ _ _ JSValue.undefined

/-- C9 witness: with an empty body the service is still invoked, and the
prompt contains undefined. -/
theorem generatePlan_absent_fields_w :
    (generatePlan [] ⟨true, "ok", ""⟩ emptyState).2.2 =
      [CallEvent.genCall (mkPrompt JSValue.undefined JSValue.undefined
        JSValue.undefined JSValue.undefined)] ∧
    ContainsSubstr (mkPrompt JSValue.undefined JSValue.undefined
      JSValue.undefined JSValue.undefined) "undefined" := by
  have h := generatePlan_absent_fields [] ⟨true, "ok", ""⟩ emptyState
  exact ⟨h.1, h.2.2.1 rfl⟩

/-- C10: the save validation rejects every falsy mealPlanMarkdown value
(absent, empty string, 0, false, null) with 400 and no store call; every
truthy value reaches the store, whose write is then attempted once. -/
theorem saveFavorite_falsy_rejected (v : JSValue) (body : ReqBody) (env : SaveEnv)
    (now : Nat) (st : StoreState) (hb : getField body "mealPlanMarkdown" = v) :
    (jsTruthy v = false →
      saveFavorite body env now st =
        (⟨400, RespBody.failure "No meal plan content provided."⟩, st, [])) ∧
    (jsTruthy v = true →
      (saveFavorite body env now st).2.2 = [CallEvent.addDocCall "favorites"]) := by
  constructor
  · intro hf
    simp [saveFavorite, hb, hf]
  · intro ht
    cases ha : env.addOk <;> simp [saveFavorite, hb, ht, ha]

/-- C10 witness: 0, false and null are each rejected with 400 and no
write; a truthy value reaches the store. -/
theorem saveFavorite_falsy_rejected_w :
    (saveFavorite [("mealPlanMarkdown", JSValue.num 0)]
        ⟨true, "idA", ""⟩ 3 emptyState =
      (⟨400, RespBody.failure "No meal plan content provided."⟩, emptyState, [])) ∧
    (saveFavorite [("mealPlanMarkdown", JSValue.bool false)]
        ⟨true, "idA", ""⟩ 3 emptyState =
      (⟨400, RespBody.failure "No meal plan content provided."⟩, emptyState, [])) ∧
    (saveFavorite [("mealPlanMarkdown", JSValue.null)]
        ⟨true, "idA", ""⟩ 3 emptyState =
      (⟨400, RespBody.failure "No meal plan content provided."⟩, emptyState, [])) ∧
    ((saveFavorite [("mealPlanMarkdown", JSValue.num 5)]
        ⟨true, "idA", ""⟩ 3 emptyState).2.2 = [CallEvent.addDocCall "favorites"]) :=
  ⟨(saveFavorite_falsy_rejected (JSValue.num 0)
      [("mealPlanMarkdown", JSValue.num 0)] ⟨true, "idA", ""⟩ 3 emptyState rfl).1 rfl,
   (saveFavorite_falsy_rejected (JSValue.bool false)
      [("mealPlanMarkdown", JSValue.bool false)] ⟨true, "idA", ""⟩ 3 emptyState rfl).1 rfl,
   (saveFavorite_falsy_rejected JSValue.null
      [("mealPlanMarkdown", JSValue.null)] ⟨true, "idA", ""⟩ 3 emptyState rfl).1 rfl,
   (saveFavorite_falsy_rejected (JSValue.num 5)
      [("mealPlanMarkdown", JSValue.num 5)] ⟨true, "idA", ""⟩ 3 emptyState rfl).2 rfl⟩
